import Mathlib

/-!
Verification development for the C-Shell frame parser and execution engine
(src/cshell.c). The C functions are shallowly embedded as Lean functions:

* strings are lists of characters (`Str`); a `NULL` pointer is `Option.none`;
* `strsep(&line, " ")`, the destructive cursor tokenizer, becomes a pure
  function from an optional remaining-line to a token and a new remaining-line;
* `parseInput` becomes a pure function from the cursor to a directive, a
  command frame and the advanced cursor;
* the process-level operations (`fork`, `pipe`, `chdir`, `getcwd`, `getenv`)
  are oracles passed in as explicit arguments, and the executors return a
  record of their externally observable effects on the interpreter process
  (pipe-relay state, whether `pipeReset` ran, whether a fork was attempted,
  whether an error diagnostic was printed, and the resulting control flow).
-/

namespace CShell

/-- Character strings, as in C: a sequence of characters.  A `char *` that may
be `NULL` is modelled as `Option Str`. -/
abbrev Str := List Char

/-- Splits a line at the first space character, mirroring one call of
`strsep(&s, " ")` on a non-null string: returns the token before the first
space, and the remainder after that space, or `none` when no space exists
(in which case C's `strsep` sets the cursor to `NULL`). -/
def splitFirst : Str → Str × Option Str
  | [] => ([], none)
  | c :: cs =>
    if c = ' ' then ([], some cs)
    else
      let r := splitFirst cs
      (c :: r.1, r.2)

/-- `strsep(&s, " ")` on a possibly-NULL cursor: a `NULL` cursor yields a
`NULL` token and leaves the cursor `NULL`; otherwise the (possibly empty)
token before the first space is returned and the cursor advances past it. -/
def strsep (cursor : Option Str) : Option Str × Option Str :=
  match cursor with
  | none => (none, none)
  | some s =>
    let r := splitFirst s
    (some r.1, r.2)

/-- The `_xcmf` extended command frame of src/cshell.c.  The C counts
`_Arg_Cnt` and `_Opt_Cnt` are the lengths of `_Args` and `_Opts`; the lists
record each store `cmd->_Args[cmd->_Arg_Cnt++] = ...` in order. -/
structure Xcmf where
  _Command : Option Str
  _Cmf_Len : Nat
  _Args : List Str
  _Opts : List Str
  redirection_file : Option Str
deriving DecidableEq, Repr

/-- The `execution_directive_t` enumeration of src/cshell.c. -/
inductive Directive
  | INIT
  | PARALLEL
  | SEQUENTIAL
  | TERMINATED
  | PIPELINE
  | EXCEPTION
deriving DecidableEq, Repr

/-- Fixed capacity of the `_Args` bucket (`#define ARGSMAX 10`). -/
def ARGSMAX : Nat := 10

/-- Fixed capacity of the `_Opts` bucket (`#define OPTSMAX 10`). -/
def OPTSMAX : Nat := 10

/-- Operator token `&&` (`#define _PARALLEL "&&"`). -/
def _PARALLEL : Str := "&&".data

/-- Operator token `##` (`#define _SEQUENTIAL "##"`). -/
def _SEQUENTIAL : Str := "##".data

/-- Operator token `>` (`#define _REDIRECTION ">"`). -/
def _REDIRECTION : Str := ">".data

/-- Operator token `|` (`#define _PIPELINE "|"`). -/
def _PIPELINE : Str := "|".data

/-- Builtin name `cd` (`#define CMD_CD "cd"`). -/
def CMD_CD : Str := "cd".data

/-- Builtin name `exit` (`#define CMD_EXIT "exit"`). -/
def CMD_EXIT : Str := "exit".data

/-- The frame with every field nulled/zeroed, exactly as `parseInput` first
initializes `*cmd` (lines 165-171 of src/cshell.c). -/
def initFrame : Xcmf :=
  { _Command := none, _Cmf_Len := 0, _Args := [], _Opts := [], redirection_file := none }

/-- Splits a string at its first `'>'` character: `some (pre, post)` when a
`'>'` occurs, with `pre` the characters before it and `post` the characters
after it; `none` when the string has no `'>'`.  This models the index search
of the `for` loop at lines 230-246 of src/cshell.c. -/
def splitAtGt : Str → Option (Str × Str)
  | [] => none
  | c :: cs =>
    if c = '>' then some ([], cs)
    else
      match splitAtGt cs with
      | some r => some (c :: r.1, r.2)
      | none => none

/-- The embedded-`>` scan run on the command token after the token loop
exhausts the cursor (lines 230-246 of src/cshell.c): if the command contains
a `'>'`, the command is replaced by the characters before the first `'>'`,
and, when the `'>'` is not the final character, the characters after it
become the redirection file. -/
def embeddedRedirScan (cmd : Xcmf) : Xcmf :=
  match cmd._Command with
  | none => cmd
  | some cstr =>
    match splitAtGt cstr with
    | none => cmd
    | some r =>
      if r.2 = [] then { cmd with _Command := some r.1 }
      else { cmd with _Command := some r.1, redirection_file := some r.2 }

/-- The token loop of `parseInput` (lines 195-227 of src/cshell.c) followed by
the embedded-`>` scan and the `TERMINATED` return.  Each iteration consumes at
least one character of the cursor, so the fuel supplied by `parseInput`
(line length + 1) can never run out; the fuel-exhaustion branch is
unreachable from `parseInput`. -/
def parseLoop : Nat → Option Str → Xcmf → Directive × Xcmf × Option Str
  | 0, cursor, cmd => (.EXCEPTION, cmd, cursor)
  | fuel + 1, cursor, cmd =>
    match cursor with
    | none => (.TERMINATED, embeddedRedirScan cmd, none)
    | some s =>
      let tr := splitFirst s
      if tr.1 = _PARALLEL then (.PARALLEL, cmd, tr.2)
      else if tr.1 = _SEQUENTIAL then (.SEQUENTIAL, cmd, tr.2)
      else if tr.1 = _PIPELINE then (.PIPELINE, cmd, tr.2)
      else if tr.1 = _REDIRECTION then
        let cmd1 : Xcmf := { cmd with _Args := cmd._Args ++ [tr.1] }
        let rr := strsep tr.2
        parseLoop fuel rr.2 { cmd1 with redirection_file := rr.1 }
      else if tr.1.head? = some '-' then
        parseLoop fuel tr.2 { cmd with _Opts := cmd._Opts ++ [tr.1] }
      else
        parseLoop fuel tr.2 { cmd with _Args := cmd._Args ++ [tr.1] }

/-- `parseInput` of src/cshell.c (lines 163-249): zeroes the frame, fails with
`EXCEPTION` on a `NULL` cursor, otherwise takes the first token as the command
name (`_Cmf_Len` is a `__uint8_t`, hence the `% 256`), then runs the token
loop.  Allocation is modelled as always succeeding.  Returns the directive,
the built frame, and the advanced cursor. -/
def parseInput (cursor : Option Str) : Directive × Xcmf × Option Str :=
  match cursor with
  | none => (.EXCEPTION, initFrame, none)
  | some s =>
    let tr := splitFirst s
    let cmd1 : Xcmf :=
      { initFrame with _Command := some tr.1, _Cmf_Len := tr.1.length % 256 }
    parseLoop (s.length + 1) tr.2 cmd1

/-- The process-wide pipe-relay state of src/cshell.c: the two descriptor
slots `static int _pipe_arr[2]` (value `-1` when empty) and the flag
`bool is_piped`. -/
structure PipeState where
  fd0 : Int
  fd1 : Int
  is_piped : Bool
deriving DecidableEq, Repr

/-- `pipeReset` (lines 525-535 of src/cshell.c): clears `is_piped`, and for
each slot holding a descriptor (value different from `-1`) closes it and
writes `-1` back.  The second component lists the descriptors on which
`close` was called, in order, so that double closes are observable. -/
def pipeReset (s : PipeState) : PipeState × List Int :=
  let r1 : PipeState × List Int :=
    if s.fd0 = -1 then ({ s with is_piped := false }, [])
    else ({ s with is_piped := false, fd0 := -1 }, [s.fd0])
  if r1.1.fd1 = -1 then (r1.1, r1.2)
  else ({ r1.1 with fd1 := -1 }, r1.2 ++ [r1.1.fd1])

/-- Outcome of the `fork()` call, seen from the interpreter process: either
the call failed, or the interpreter is the parent of a new child.  (The child
branch replaces its process image and is not part of the interpreter's own
state.) -/
inductive ForkResult
  | fail
  | parent (pid : Nat)
deriving DecidableEq, Repr

/-- Control flow of the interpreter process after one executor call or one
frame dispatch: return normally to the driver loop, `break` out of the
current line's frame loop, terminate the shell normally (`exit`), or
terminate the whole interpreter with `exit(EXIT_FAILURE)`. -/
inductive LoopControl
  | returns
  | breaksLine
  | exitsOk
  | exitsFatal
deriving DecidableEq, Repr

/-- Externally observable effect of one executor call or frame dispatch on
the interpreter process: the pipe-relay state afterwards, whether `pipeReset`
was invoked, whether a `fork` was attempted, whether an error diagnostic was
printed by the interpreter process (`perror`), and the resulting control
flow. -/
structure ExecResult where
  relay : PipeState
  resetCalled : Bool
  forkAttempted : Bool
  errPrinted : Bool
  control : LoopControl
deriving DecidableEq, Repr

/-- `executeCommand` (lines 296-350 of src/cshell.c), viewed from the
interpreter (parent) process: a `NULL` or empty command returns immediately,
touching nothing; a failed fork prints `ERR_FORK` and exits the whole
interpreter with failure before `pipeReset` is reached; a successful fork
waits for the child and then invokes `pipeReset`. -/
def executeCommand (f : Xcmf) (fk : ForkResult) (s : PipeState) : ExecResult :=
  match f._Command with
  | none => ⟨s, false, false, false, .returns⟩
  | some c =>
    if c.length = 0 then ⟨s, false, false, false, .returns⟩
    else
      match fk with
      | .fail => ⟨s, false, true, true, .exitsFatal⟩
      | .parent _ => ⟨(pipeReset s).1, true, true, false, .returns⟩

/-- `executeCommandPipe` (lines 354-391 of src/cshell.c), viewed from the
interpreter process.  `pr` is the outcome of `pipe(_pipe_arr)`: `none` means
pipe creation failed (`exit(EXIT_FAILURE)`, no diagnostic); `some (r, w)`
fills both relay slots with the fresh descriptors.  A failed fork prints
`ERR_FORK` and exits the interpreter with failure.  On success the parent
closes the write end (the slot keeps its value), waits for the child, and
sets `is_piped := true`; `pipeReset` is never invoked here. -/
def executeCommandPipe (f : Xcmf) (pr : Option (Int × Int)) (fk : ForkResult)
    (s : PipeState) : ExecResult :=
  match pr with
  | none => ⟨s, false, false, false, .exitsFatal⟩
  | some rw =>
    let s1 : PipeState := ⟨rw.1, rw.2, s.is_piped⟩
    match fk with
    | .fail => ⟨s1, false, true, true, .exitsFatal⟩
    | .parent _ => ⟨{ s1 with is_piped := true }, false, true, false, .returns⟩

/-- Result of the driver loop's first inspection of a frame's command field
(lines 455-458 of src/cshell.c): `strcmp(cmd._Command, "cd")` then
`strcmp(cmd._Command, "exit")`.  When the command field is `NULL` the
`strcmp` call reads a null pointer (`nullRead`, undefined behavior in C). -/
inductive CommandProbe
  | nullRead
  | isCd
  | isExit
  | external
deriving DecidableEq, Repr

/-- The driver loop's builtin check on the command field of the frame just
parsed (lines 455-458 of src/cshell.c). -/
def builtinCheck : Option Str → CommandProbe
  | none => .nullRead
  | some c =>
    if c = CMD_CD then .isCd
    else if c = CMD_EXIT then .isExit
    else .external

/-- One frame dispatch of the driver loop (lines 455-502 of src/cshell.c),
viewed from the interpreter process.  The command field is inspected first:
a `NULL` command makes `strcmp` read a null pointer — undefined behavior,
modelled as `none`.  `cd` dispatches to `changeDirectory` (relay untouched),
`exit` terminates the shell normally; otherwise the directive routes the
frame: `PARALLEL` forks (the parent continues to the next frame, a failed
fork prints `ERR_FORK` and breaks out of the line's loop), `PIPELINE` calls
`executeCommandPipe`, anything else calls `executeCommand`. -/
def dispatchStep (f : Xcmf) (d : Directive) (s : PipeState)
    (pr : Option (Int × Int)) (fk : ForkResult) : Option ExecResult :=
  match f._Command with
  | none => none
  | some c =>
    if c = CMD_CD then some ⟨s, false, false, false, .returns⟩
    else if c = CMD_EXIT then some ⟨s, false, false, false, .exitsOk⟩
    else if d = .PARALLEL then
      match fk with
      | .fail => some ⟨s, false, true, true, .breaksLine⟩
      | .parent _ => some ⟨s, false, true, false, .returns⟩
    else if d = .PIPELINE then some (executeCommandPipe f pr fk s)
    else some (executeCommand f fk s)

/-- `#define MAX_PATH_LEN 50000`, the size of the `cwd` and `abs_pth`
buffers in `changeDirectory`. -/
def MAX_PATH_LEN : Nat := 50000

/-- The literal token `..`. -/
def DOTDOT : Str := "..".data

/-- Target-path resolution of `changeDirectory` (lines 253-287 of
src/cshell.c), the branch cascade before the single `chdir` call.  Inputs:
the frame, `getenv("HOME")`, and the result of `getcwd` (`none` = failure).
Returns the path handed to `chdir` (`none` = no `chdir` call) and whether an
error was reported during resolution (`perror(ERR_GETCWD)`).  The
`snprintf` return-value checks make an over-long join a silent no-op. -/
def cdResolve (f : Xcmf) (home : Option Str) (cwdRes : Option Str) :
    Option Str × Bool :=
  match f._Args.head? with
  | none => (home, false)
  | some a =>
    if a = DOTDOT then
      match cwdRes with
      | none => (none, true)
      | some cwd =>
        if MAX_PATH_LEN ≤ cwd.length + 3 then (none, false)
        else (some (cwd ++ '/' :: DOTDOT), false)
    else
      match cwdRes with
      | none => (none, true)
      | some cwd =>
        if MAX_PATH_LEN ≤ cwd.length + 1 + a.length then (none, false)
        else (some (cwd ++ '/' :: a), false)

/-- Externally observable effect of one `changeDirectory` call: the path
passed to `chdir` (if any), whether an error was reported, whether the
working directory changed, and whether the interpreter terminated. -/
structure CdResult where
  chdirTarget : Option Str
  errorReported : Bool
  cwdChanged : Bool
  fatal : Bool
deriving DecidableEq, Repr

/-- `changeDirectory` (lines 253-293 of src/cshell.c): resolve the target
path, then call `chdir` on it (`chdirOk` is the oracle for the `chdir`
outcome).  A failed `chdir` reports `ERR_CHDIR` and leaves the working
directory unchanged; no branch terminates the interpreter. -/
def changeDirectory (f : Xcmf) (home : Option Str) (cwdRes : Option Str)
    (chdirOk : Str → Bool) : CdResult :=
  match cdResolve f home cwdRes with
  | (none, e) => ⟨none, e, false, false⟩
  | (some p, e) =>
    if chdirOk p then ⟨some p, e, true, false⟩
    else ⟨some p, true, false, false⟩

/-- The positional-argument portion of the argv built by the synchronous
executor (lines 325-330 of src/cshell.c): arguments are copied in insertion
order, stopping (`break`) at the first argument equal to `_REDIRECTION`. -/
def syncArgvArgs : List Str → List Str
  | [] => []
  | a :: rest => if a = _REDIRECTION then [] else a :: syncArgvArgs rest

/-- The argv the synchronous executor passes to `execvp` (lines 318-331 of
src/cshell.c): the command name, the options in order, then the positional
arguments up to but excluding the first `>` token.  (The terminating `NULL`
sentinel of the C array is not part of the list.) -/
def execArgvSync (c : Str) (f : Xcmf) : List Str :=
  c :: (f._Opts ++ syncArgvArgs f._Args)

/-- The argv the pipeline executor passes to `execvp` (lines 364-374 of
src/cshell.c): the command name, the options in order, then all positional
arguments in order — its copy loop has no `break` at the `>` token. -/
def execArgvPipe (c : Str) (f : Xcmf) : List Str :=
  c :: (f._Opts ++ f._Args)

/-- Modelled from the spec: the argv shape the spec prescribes for every
dispatched frame, `[command, *options, *arguments-up-to-redirection]` —
positional arguments in order up to but excluding the redirection-operator
token.  Written from the spec's words, to be compared with `execArgvSync`
and `execArgvPipe`, the definitions taken from the source. -/
def specArgv (c : Str) (f : Xcmf) : List Str :=
  c :: (f._Opts ++ f._Args.takeWhile (fun a => decide (a ≠ _REDIRECTION)))

/-- Helper: after one `pipeReset`, both relay slots hold `-1` and the armed
flag is cleared, whatever the starting state. -/
lemma pipeReset_fst (s : PipeState) : (pipeReset s).1 = ⟨-1, -1, false⟩ := by
  obtain ⟨a, b, c⟩ := s
  by_cases h1 : a = -1 <;> by_cases h2 : b = -1 <;>
    simp [pipeReset, h1, h2]

/-- Helper: the synchronous executor's positional-argument copy loop, which
`break`s at the first `>` token, computes a `takeWhile`. -/
lemma syncArgvArgs_eq_takeWhile (l : List Str) :
    syncArgvArgs l = l.takeWhile (fun a => decide (a ≠ _REDIRECTION)) := by
  induction l with
  | nil => rfl
  | cons a rest ih =>
    by_cases h : a = _REDIRECTION <;>
      simp [syncArgvArgs, List.takeWhile_cons, h, ih]

/-- C1 (counterexample): parsing `ls > out.txt | wc` produces a `PIPELINE`
frame whose positional arguments contain the stored `>` token, and the argv
built by the pipeline executor for that frame is *not* the
`[command, *options, *arguments-up-to-redirection]` shape the claim asserts
for every dispatched frame: the pipeline executor's copy loop has no `break`
at `>`, so its argv is `["ls", ">"]` rather than `["ls"]`. -/
theorem pipeline_argv_keeps_redirection_token_cex :
    parseInput (some "ls > out.txt | wc".data)
      = (.PIPELINE, ⟨some "ls".data, 2, [_REDIRECTION], [], some "out.txt".data⟩,
         some "wc".data)
  ∧ execArgvPipe "ls".data ⟨some "ls".data, 2, [_REDIRECTION], [], some "out.txt".data⟩
      ≠ specArgv "ls".data ⟨some "ls".data, 2, [_REDIRECTION], [], some "out.txt".data⟩ := by
  decide

/-- C1 (amended): the synchronous executor's argv is exactly the command
name, then the options in order, then the positional arguments in order up
to but excluding the first `>` token; the pipeline executor's argv instead
contains *all* positional arguments in order, including any stored `>` token
and everything after it. -/
theorem argv_shape_per_executor (c : Str) (f : Xcmf) :
    execArgvSync c f = specArgv c f
  ∧ execArgvPipe c f = c :: (f._Opts ++ f._Args) := by
  refine ⟨?_, rfl⟩
  simp [execArgvSync, specArgv, syncArgvArgs_eq_takeWhile]

/-- C2 (counterexample): on the empty (non-null) line, `strsep` returns the
empty token, so `parseInput` does *not* fail: it sets the command field to
the empty string and returns `TERMINATED`, contradicting the claim that an
empty line yields `EXCEPTION` with the command field never set. -/
theorem parse_empty_line_sets_command_cex :
    parseInput (some "".data) = (.TERMINATED, ⟨some [], 0, [], [], none⟩, none)
  ∧ (parseInput (some "".data)).1 ≠ .EXCEPTION
  ∧ (parseInput (some "".data)).2.1._Command ≠ none := by
  decide

/-- C2 (amended): `parseInput` fails with `EXCEPTION` exactly on a null
cursor (an already-exhausted line), with every frame field left in its
zeroed initial state; on an empty-string line the first token is the empty
string, so the command field is set to `""` and the directive is
`TERMINATED`. -/
theorem parse_null_vs_empty_cursor :
    parseInput none = (.EXCEPTION, initFrame, none)
  ∧ parseInput (some "".data)
      = (.TERMINATED, { initFrame with _Command := some [] }, none) := by
  decide

/-- C3: `cd` target resolution and failure containment.  With no argument
the path handed to `chdir` is `getenv("HOME")` (and a null home is a silent
no-op, covered by the same equation); with argument `..` the target is the
literal join `cwd ++ "/.."`; with any other argument — including an absolute
path — the target is the literal join `cwd ++ "/" ++ argument` (both under
the `snprintf` fit bound `MAX_PATH_LEN`); whenever the resolved `chdir`
fails, the error is reported, the working directory is unchanged, and no
`changeDirectory` call ever terminates the interpreter. -/
theorem cd_target_resolution
    (n : Nat) (opts rest : List Str) (rf : Option Str)
    (home : Option Str) (cwd a : Str) (chdirOk : Str → Bool)
    (g : Xcmf) (gh gc : Option Str) (q : Str)
    (g2 : Xcmf) (g2h g2c : Option Str) (ok2 : Str → Bool)
    (hfitDot : cwd.length + 3 < MAX_PATH_LEN)
    (hne : a ≠ DOTDOT)
    (hfitA : cwd.length + 1 + a.length < MAX_PATH_LEN)
    (hres : cdResolve g gh gc = (some q, false))
    (hfail : chdirOk q = false) :
    cdResolve ⟨some CMD_CD, n, [], opts, rf⟩ home (some cwd) = (home, false)
  ∧ cdResolve ⟨some CMD_CD, n, DOTDOT :: rest, opts, rf⟩ home (some cwd)
      = (some (cwd ++ '/' :: DOTDOT), false)
  ∧ cdResolve ⟨some CMD_CD, n, a :: rest, opts, rf⟩ home (some cwd)
      = (some (cwd ++ '/' :: a), false)
  ∧ changeDirectory g gh gc chdirOk = ⟨some q, true, false, false⟩
  ∧ (changeDirectory g2 g2h g2c ok2).fatal = false := by
  refine ⟨rfl, ?_, ?_, ?_, ?_⟩
  · simp [cdResolve, Nat.not_le.mpr hfitDot]
  · simp [cdResolve, hne, Nat.not_le.mpr hfitA]
  · simp [changeDirectory, hres, hfail]
  · rcases hr : cdResolve g2 g2h g2c with ⟨p, e⟩
    cases p <;> simp [changeDirectory, hr] <;> split <;> rfl

/-- C3 (witness): concrete instance — cwd `/a/b`, home `/root`, the
"other argument" is the absolute path `/tmp` (still prefixed with cwd), and
a failing `chdir` reports the error, leaves the cwd unchanged and is not
fatal. -/
theorem cd_target_resolution_witness :
    cdResolve ⟨some CMD_CD, 2, [], [], none⟩ (some "/root".data) (some "/a/b".data)
      = (some "/root".data, false)
  ∧ cdResolve ⟨some CMD_CD, 2, [DOTDOT], [], none⟩ (some "/root".data) (some "/a/b".data)
      = (some ("/a/b".data ++ '/' :: DOTDOT), false)
  ∧ cdResolve ⟨some CMD_CD, 2, ["/tmp".data], [], none⟩ (some "/root".data)
        (some "/a/b".data)
      = (some ("/a/b".data ++ '/' :: "/tmp".data), false)
  ∧ changeDirectory ⟨some CMD_CD, 2, ["x".data], [], none⟩ (some "/root".data)
        (some "/a/b".data) (fun _ => false)
      = ⟨some "/a/b/x".data, true, false, false⟩
  ∧ (changeDirectory initFrame none none (fun _ => true)).fatal = false :=
  cd_target_resolution 2 [] [] none (some "/root".data) "/a/b".data "/tmp".data
    (fun _ => false) ⟨some CMD_CD, 2, ["x".data], [], none⟩ (some "/root".data)
    (some "/a/b".data) "/a/b/x".data initFrame none none (fun _ => true)
    (by decide) (by decide) (by decide) (by decide) rfl

/-- C4: `parse("ls > out.txt")` yields command `ls` and redirection target
`out.txt` (the `>` token itself is stored as a positional argument), and
`parse("ls>out.txt")` yields the same command and the same redirection
target via the embedded-`>` scan of the command token; both return
`TERMINATED`. -/
theorem parse_redirection_spaced_and_embedded :
    parseInput (some "ls > out.txt".data)
      = (.TERMINATED, ⟨some "ls".data, 2, [_REDIRECTION], [], some "out.txt".data⟩, none)
  ∧ parseInput (some "ls>out.txt".data)
      = (.TERMINATED, ⟨some "ls".data, 10, [], [], some "out.txt".data⟩, none) := by
  decide

/-- C5 (counterexample): dispatching a `cd` frame while the relay is armed
(`is_piped = true`, both slots holding descriptors) leaves the relay state
entirely unchanged and does not invoke `pipeReset` — contradicting the claim
that the reset operation runs after every frame dispatch regardless of
directive, including builtin frames. -/
theorem cd_dispatch_keeps_armed_relay_cex :
    dispatchStep ⟨some CMD_CD, 2, ["x".data], [], none⟩ .SEQUENTIAL ⟨5, 6, true⟩ none .fail
      = some ⟨⟨5, 6, true⟩, false, false, false, .returns⟩
  ∧ (⟨5, 6, true⟩ : PipeState).is_piped = true := by
  decide

/-- C5 (amended): `pipeReset` is invoked during a frame dispatch only on the
synchronous-executor path — a non-builtin, non-empty command with a
directive other than `PARALLEL` and `PIPELINE`, whose fork succeeds — where
it leaves the relay idle.  `cd`, `exit` and parallel dispatches leave the
relay state untouched without invoking reset, and a pipeline dispatch arms
the relay (the intentional one-slot relay window) without invoking reset. -/
theorem reset_only_on_sync_dispatch
    (ch : Char) (c : Str) (n : Nat) (args opts : List Str) (rf : Option Str)
    (s : PipeState) (r w : Int) (p : Nat) (d : Directive)
    (h1 : ch :: c ≠ CMD_CD) (h2 : ch :: c ≠ CMD_EXIT)
    (hd1 : d ≠ .PARALLEL) (hd2 : d ≠ .PIPELINE) :
    dispatchStep ⟨some (ch :: c), n, args, opts, rf⟩ d s (some (r, w)) (.parent p)
      = some ⟨(pipeReset s).1, true, true, false, .returns⟩
  ∧ dispatchStep ⟨some CMD_CD, n, args, opts, rf⟩ d s (some (r, w)) (.parent p)
      = some ⟨s, false, false, false, .returns⟩
  ∧ dispatchStep ⟨some CMD_EXIT, n, args, opts, rf⟩ d s (some (r, w)) (.parent p)
      = some ⟨s, false, false, false, .exitsOk⟩
  ∧ dispatchStep ⟨some (ch :: c), n, args, opts, rf⟩ .PARALLEL s (some (r, w)) (.parent p)
      = some ⟨s, false, true, false, .returns⟩
  ∧ dispatchStep ⟨some (ch :: c), n, args, opts, rf⟩ .PIPELINE s (some (r, w)) (.parent p)
      = some ⟨⟨r, w, true⟩, false, true, false, .returns⟩ := by
  refine ⟨?_, rfl, ?_, ?_, ?_⟩
  · simp [dispatchStep, h1, h2, hd1, hd2, executeCommand]
  · simp [dispatchStep, show CMD_EXIT ≠ CMD_CD by decide]
  · simp [dispatchStep, h1, h2]
  · simp [dispatchStep, h1, h2, executeCommandPipe]

/-- C5 (amended, witness): concrete instance with command `echo`, an armed
starting relay `⟨3, 4, true⟩`, fresh pipe ends `8, 9` and a successful
fork. -/
theorem reset_only_on_sync_dispatch_witness :
    dispatchStep ⟨some ('e' :: "cho".data), 4, [], [], none⟩ .SEQUENTIAL ⟨3, 4, true⟩
        (some (8, 9)) (.parent 1)
      = some ⟨(pipeReset ⟨3, 4, true⟩).1, true, true, false, .returns⟩
  ∧ dispatchStep ⟨some CMD_CD, 4, [], [], none⟩ .SEQUENTIAL ⟨3, 4, true⟩
        (some (8, 9)) (.parent 1)
      = some ⟨⟨3, 4, true⟩, false, false, false, .returns⟩
  ∧ dispatchStep ⟨some CMD_EXIT, 4, [], [], none⟩ .SEQUENTIAL ⟨3, 4, true⟩
        (some (8, 9)) (.parent 1)
      = some ⟨⟨3, 4, true⟩, false, false, false, .exitsOk⟩
  ∧ dispatchStep ⟨some ('e' :: "cho".data), 4, [], [], none⟩ .PARALLEL ⟨3, 4, true⟩
        (some (8, 9)) (.parent 1)
      = some ⟨⟨3, 4, true⟩, false, true, false, .returns⟩
  ∧ dispatchStep ⟨some ('e' :: "cho".data), 4, [], [], none⟩ .PIPELINE ⟨3, 4, true⟩
        (some (8, 9)) (.parent 1)
      = some ⟨⟨8, 9, true⟩, false, true, false, .returns⟩ :=
  reset_only_on_sync_dispatch 'e' "cho".data 4 [] [] none ⟨3, 4, true⟩ 8 9 1
    .SEQUENTIAL (by decide) (by decide) (by decide) (by decide)

/-- C6: `pipeReset` is idempotent — resetting the already-reset state yields
the same state again, and the second reset closes no descriptor at all (its
close list is empty), so consecutive resets never close a descriptor
twice. -/
theorem pipeReset_idempotent (s : PipeState) :
    pipeReset (pipeReset s).1 = ((pipeReset s).1, ([] : List Int)) := by
  rw [pipeReset_fst]
  decide

/-- C7 (counterexample): a fork failure on the parallel dispatch path is not
fatal — the driver prints `ERR_FORK` and `break`s out of the current line's
frame loop, then the interpreter goes on to read the next input line —
contradicting the claim that every fork failure terminates the whole
interpreter with a failure status. -/
theorem parallel_fork_failure_not_fatal_cex :
    dispatchStep ⟨some "echo".data, 4, ["hi".data], [], none⟩ .PARALLEL ⟨-1, -1, false⟩
        none .fail
      = some ⟨⟨-1, -1, false⟩, false, true, true, .breaksLine⟩
  ∧ LoopControl.breaksLine ≠ LoopControl.exitsFatal := by
  decide

/-- C7 (amended): a fork failure in the synchronous executor or in the
pipeline executor is fatal to the whole interpreter (`exit(EXIT_FAILURE)`),
but a fork failure on the parallel dispatch path only prints the error and
breaks out of the current line's frame loop — the interpreter survives and
continues with the next input line. -/
theorem fork_failure_fatality_by_path
    (ch : Char) (c : Str) (n : Nat) (args opts : List Str) (rf : Option Str)
    (f : Xcmf) (r w : Int) (s : PipeState) (pr : Option (Int × Int))
    (h1 : ch :: c ≠ CMD_CD) (h2 : ch :: c ≠ CMD_EXIT) :
    executeCommand ⟨some (ch :: c), n, args, opts, rf⟩ .fail s
      = ⟨s, false, true, true, .exitsFatal⟩
  ∧ executeCommandPipe f (some (r, w)) .fail s
      = ⟨⟨r, w, s.is_piped⟩, false, true, true, .exitsFatal⟩
  ∧ dispatchStep ⟨some (ch :: c), n, args, opts, rf⟩ .PARALLEL s pr .fail
      = some ⟨s, false, true, true, .breaksLine⟩ := by
  refine ⟨?_, rfl, ?_⟩
  · simp [executeCommand]
  · simp [dispatchStep, h1, h2]

/-- C7 (amended, witness): concrete instance with command `echo` and an idle
relay. -/
theorem fork_failure_fatality_by_path_witness :
    executeCommand ⟨some ('e' :: "cho".data), 4, [], [], none⟩ .fail ⟨-1, -1, false⟩
      = ⟨⟨-1, -1, false⟩, false, true, true, .exitsFatal⟩
  ∧ executeCommandPipe initFrame (some (8, 9)) .fail ⟨-1, -1, false⟩
      = ⟨⟨8, 9, (⟨-1, -1, false⟩ : PipeState).is_piped⟩, false, true, true, .exitsFatal⟩
  ∧ dispatchStep ⟨some ('e' :: "cho".data), 4, [], [], none⟩ .PARALLEL ⟨-1, -1, false⟩
        none .fail
      = some ⟨⟨-1, -1, false⟩, false, true, true, .breaksLine⟩ :=
  fork_failure_fatality_by_path 'e' "cho".data 4 [] [] none initFrame 8 9
    ⟨-1, -1, false⟩ none (by decide) (by decide)

/-- C8: the claim (and the spec) say token counts beyond the fixed
capacities are truncated with every store staying within capacity; the code
has no bounds check at all — `cmd->_Args[cmd->_Arg_Cnt++] = strdup(token)` —
so a line with eleven positional arguments performs eleven stores, the
eleventh at index `ARGSMAX`, one past the end of the ten-slot `malloc`'d
bucket (a heap overflow, not a truncation).  The model records all eleven
stores. -/
theorem parse_overflows_args_capacity :
    ((parseInput (some "x 1 2 3 4 5 6 7 8 9 10 11".data)).2.1._Args).length = 11
  ∧ ARGSMAX < ((parseInput (some "x 1 2 3 4 5 6 7 8 9 10 11".data)).2.1._Args).length := by
  decide

/-- C9: whenever a parse stops at a control operator that exhausted the line
(the operator was the line's final token, so the advanced cursor is null),
the following parse call receives that null cursor and returns `EXCEPTION`
with every frame field in its nulled/zeroed initial state — including a null
command field, which the driver loop's builtin check then reads (a null
pointer handed to `strcmp`) when deciding between builtin and executor
dispatch. -/
theorem parse_after_line_final_operator
    (l : Str) (d : Directive) (f : Xcmf) (c' : Option Str)
    (hparse : parseInput (some l) = (d, f, c'))
    (hop : d = .PARALLEL ∨ d = .SEQUENTIAL ∨ d = .PIPELINE)
    (hend : c' = none) :
    parseInput c' = (.EXCEPTION, initFrame, none)
  ∧ builtinCheck (parseInput c').2.1._Command = .nullRead := by
  subst hend
  exact ⟨rfl, rfl⟩

/-- C9 (witness): the line `echo hi ##` parses to a `SEQUENTIAL` frame with
a null advanced cursor, and the following parse call excepts with the
all-null frame whose command field the builtin check reads as null. -/
theorem parse_after_line_final_operator_witness :
    parseInput (none : Option Str) = (.EXCEPTION, initFrame, none)
  ∧ builtinCheck (parseInput (none : Option Str)).2.1._Command = .nullRead :=
  parse_after_line_final_operator "echo hi ##".data .SEQUENTIAL
    ⟨some "echo".data, 4, ["hi".data], [], none⟩ none (by decide)
    (Or.inr (Or.inl rfl)) rfl

/-- C10: the synchronous executor, given a frame whose command field is null
or the empty string, returns immediately: no fork is attempted, no
diagnostic is printed, `pipeReset` is not invoked, and the relay state is
returned unchanged. -/
theorem exec_null_or_empty_command_noop
    (n : Nat) (args opts : List Str) (rf : Option Str)
    (fk : ForkResult) (s : PipeState) :
    executeCommand ⟨none, n, args, opts, rf⟩ fk s = ⟨s, false, false, false, .returns⟩
  ∧ executeCommand ⟨some [], n, args, opts, rf⟩ fk s
      = ⟨s, false, false, false, .returns⟩ :=
  ⟨rfl, rfl⟩

end CShell
